import Mathlib

/-!
Shallow embedding of the nearest-match record-retrieval core of the
car-price lookup app (`app.js` and its labeled variant).  JS numbers are
modelled as rationals (`ℚ`); the JS `NaN` produced by a failed
`parseInt`/`parseFloat` is modelled explicitly by `JSNum` where query
construction can produce it.  The matching logic of the two source
variants is identical; they differ only in the scope of the `bestScore`
binding used to compute the exactness flag, which we model separately.
-/

namespace CarPrice

/-- One dataset row (`DATA.rows[i]`).  Categorical codes are strings (the
values held by the dropdowns); numeric fields are rationals. -/
structure Record where
  Manufacturer : String
  Model : String
  Production_Year : ℚ
  Category : String
  Leather_Interior : Bool
  Fuel_Type : String
  Engine_Volume : ℚ
  Mileage : ℚ
  Gearbox_Type : String
  Drive_Wheels : String
  Doors : ℚ
  Wheel : String
  Airbags : ℚ
  predicted_price : ℚ
deriving DecidableEq, Repr

/-- A well-typed query descriptor (the object `q` built in `onPredict`,
in the case where every numeric field parsed to an actual number). -/
structure Query where
  Manufacturer : String
  Model : String
  Production_Year : ℚ
  Category : String
  Leather_Interior : Bool
  Fuel_Type : String
  Engine_Volume : ℚ
  Mileage : ℚ
  Gearbox_Type : String
  Drive_Wheels : String
  Doors : ℚ
  Wheel : String
  Airbags : ℚ
deriving DecidableEq, Repr

/-- The query built from a record's own fields (the spec's `queryFrom`). -/
def queryFrom (r : Record) : Query :=
  ⟨r.Manufacturer, r.Model, r.Production_Year, r.Category, r.Leather_Interior,
   r.Fuel_Type, r.Engine_Volume, r.Mileage, r.Gearbox_Type, r.Drive_Wheels,
   r.Doors, r.Wheel, r.Airbags⟩

/-- Validation in `onPredict`: `!q.Manufacturer || !q.Model ||
!q.Production_Year` rejects the query (empty string and the number 0 are
falsy in JS). -/
def validQuery (q : Query) : Bool :=
  !(q.Manufacturer == "") && !(q.Model == "") && !(decide (q.Production_Year = 0))

/-- The exact-match predicate from the `rows.find(...)` callback:
code equality on every categorical field, exact equality on Mileage,
Airbags, Doors and Production Year, and Engine Volume within 0.001. -/
def isExactMatch (q : Query) (r : Record) : Bool :=
  r.Manufacturer == q.Manufacturer &&
  r.Model == q.Model &&
  decide (r.Production_Year = q.Production_Year) &&
  r.Category == q.Category &&
  r.Leather_Interior == q.Leather_Interior &&
  r.Fuel_Type == q.Fuel_Type &&
  r.Gearbox_Type == q.Gearbox_Type &&
  r.Drive_Wheels == q.Drive_Wheels &&
  decide (r.Doors = q.Doors) &&
  r.Wheel == q.Wheel &&
  decide (r.Airbags = q.Airbags) &&
  decide (|r.Engine_Volume - q.Engine_Volume| < 1 / 1000) &&
  decide (r.Mileage = q.Mileage)

/-- JS `x || 1` on a (non-NaN) number: 0 is falsy, so it becomes 1. -/
def jsOr1 (x : ℚ) : ℚ := if x = 0 then 1 else x

def engineVolWeight : ℚ := 2

def mileageWeight : ℚ := 1

def yearWeight : ℚ := 3

def airbagsWeight : ℚ := 1

/-- `engineDiff` from the nearest-match loop. -/
def engineDiff (q : Query) (r : Record) : ℚ :=
  |r.Engine_Volume - q.Engine_Volume| / jsOr1 q.Engine_Volume

/-- `mileageDiff` from the nearest-match loop. -/
def mileageDiff (q : Query) (r : Record) : ℚ :=
  |r.Mileage - q.Mileage| / jsOr1 q.Mileage

/-- `yearDiff` from the nearest-match loop: fixed denominator 10. -/
def yearDiff (q : Query) (r : Record) : ℚ :=
  |r.Production_Year - q.Production_Year| / 10

/-- `airbagsDiff` from the nearest-match loop. -/
def airbagsDiff (q : Query) (r : Record) : ℚ :=
  |r.Airbags - q.Airbags| / jsOr1 q.Airbags

/-- The categorical mismatch penalties accumulated by the sequence of
`if (... !== ...) score += k` statements. -/
def catScore (q : Query) (r : Record) : ℚ :=
  (if r.Manufacturer ≠ q.Manufacturer then 5 else 0) +
  (if r.Model ≠ q.Model then 5 else 0) +
  (if r.Category ≠ q.Category then 3 else 0) +
  (if r.Fuel_Type ≠ q.Fuel_Type then 3 else 0) +
  (if r.Gearbox_Type ≠ q.Gearbox_Type then 2 else 0) +
  (if r.Drive_Wheels ≠ q.Drive_Wheels then 2 else 0) +
  (if r.Leather_Interior ≠ q.Leather_Interior then 1 else 0)

/-- The per-record dissimilarity score of the nearest-match loop:
categorical penalties plus the weighted normalized numeric terms. -/
def score (q : Query) (r : Record) : ℚ :=
  catScore q r +
    (engineDiff q r * engineVolWeight + mileageDiff q r * mileageWeight +
      yearDiff q r * yearWeight + airbagsDiff q r * airbagsWeight)

/-- JS `s < bestScore` where `bestScore` starts at `Infinity` (modelled
by `none`): every finite score beats `Infinity`. -/
def ltOpt (s : ℚ) : Option ℚ → Bool
  | none => true
  | some v => decide (s < v)

/-- The nearest-match scan: `best`/`bestScore` start as `null`/`Infinity`
and are updated exactly when the current record's score is strictly
smaller. -/
def nearestFold (q : Query) : List Record → Option Record × Option ℚ →
    Option Record × Option ℚ
  | [], acc => acc
  | r :: rs, acc =>
      if ltOpt (score q r) acc.2 then nearestFold q rs (some r, some (score q r))
      else nearestFold q rs acc

/-- The whole nearest-match pass over the dataset rows. -/
def findNearest (q : Query) (rows : List Record) : Option Record × Option ℚ :=
  nearestFold q rows (none, none)

/-- JS `bestScore > 0` where `bestScore` may be `Infinity` (`none`). -/
def jsGtZero : Option ℚ → Bool
  | none => true
  | some v => decide (0 < v)

/-- The result the collaborator renders: matched record (or `null`),
its score (`none` models the untouched `Infinity`), and the exactness
flag computed as the negation of `bestScore > 0`. -/
structure MatchResult where
  record : Option Record
  score : Option ℚ
  exact : Bool
deriving DecidableEq, Repr

/-- The matching core of `onPredict` as in the labeled variant, where
`bestScore` is declared at function scope (initially 0): exact-match
pass first, nearest-match pass only when it fails, exactness flag
`!(bestScore > 0)`. -/
def findMatch (q : Query) (rows : List Record) : MatchResult :=
  match rows.find? (fun r => isExactMatch q r) with
  | some r => ⟨some r, some 0, !jsGtZero (some 0)⟩
  | none =>
      let best := findNearest q rows
      ⟨best.1, best.2, !jsGtZero best.2⟩

/-- The `app.js` variant of `onPredict` after validation: there
`bestScore` is declared with `let` inside the `if (!match)` block
(lines 167-168), so the display code at line 213, which computes the
exactness flag as `bestScore > 0`, reads a binding that is not in scope
and raises a `ReferenceError` whenever a match (exact or nearest) was
found.  The raised error is modelled with `Except.error`; when no match
exists the else branch never touches `bestScore` and reports no record. -/
def onPredictApp (q : Query) (rows : List Record) : Except String MatchResult :=
  let m : Option Record :=
    match rows.find? (fun r => isExactMatch q r) with
    | some r => some r
    | none => (findNearest q rows).1
  match m with
  | some _ => Except.error "ReferenceError: bestScore is not defined"
  | none => Except.ok ⟨none, none, false⟩

/-- A JS number as produced by `parseInt`/`parseFloat`: either an actual
number or `NaN`. -/
inductive JSNum where
  | num (val : ℚ)
  | nan
deriving DecidableEq, Repr

/-- Whether a `JSNum` is an actual number (not `NaN`). -/
def JSNum.isNum : JSNum → Bool
  | .num _ => true
  | .nan => false

/-- Value of the decimal digits of a character list. -/
def digitsToNat (ds : List Char) : Nat :=
  ds.foldl (fun a c => 10 * a + (c.toNat - 48)) 0

/-- Modelled from the decimal behavior of JS `parseInt(s, 10)`: skip
leading spaces, optional sign, then leading digits; `none` (JS `NaN`)
when no digit is found. -/
def jsParseInt (s : String) : Option Int :=
  let cs := s.data.dropWhile (fun c => c = ' ')
  let signed : Int × List Char :=
    match cs with
    | '-' :: rest => (-1, rest)
    | '+' :: rest => (1, rest)
    | _ => (1, cs)
  let ds := signed.2.takeWhile Char.isDigit
  if ds.isEmpty then none else some (signed.1 * (digitsToNat ds : Int))

/-- Modelled from the decimal behavior of JS `parseFloat(s)`: optional
sign, integer digits, optional fractional digits; `none` (JS `NaN`)
when no digit is found at all. -/
def jsParseFloat (s : String) : Option ℚ :=
  let cs := s.data.dropWhile (fun c => c = ' ')
  let signed : ℚ × List Char :=
    match cs with
    | '-' :: rest => (-1, rest)
    | '+' :: rest => (1, rest)
    | _ => (1, cs)
  let ds := signed.2.takeWhile Char.isDigit
  let rest := signed.2.drop ds.length
  let fs : List Char :=
    match rest with
    | '.' :: tail => tail.takeWhile Char.isDigit
    | _ => []
  if ds.isEmpty && fs.isEmpty then none
  else some (signed.1 * ((digitsToNat ds : ℚ) + (digitsToNat fs : ℚ) / (10 : ℚ) ^ fs.length))

/-- Lift a parse result to a JS number. -/
def toJSNum : Option ℚ → JSNum
  | none => JSNum.nan
  | some v => JSNum.num v

/-- Lift an integer parse result to a JS number. -/
def toJSNumInt : Option Int → JSNum
  | none => JSNum.nan
  | some v => JSNum.num (v : ℚ)

/-- JS `x || 0` on a `JSNum`: `NaN` and 0 are falsy and become 0. -/
def jsOrZero : JSNum → JSNum
  | JSNum.nan => JSNum.num 0
  | JSNum.num v => if v = 0 then JSNum.num 0 else JSNum.num v

/-- The raw form inputs read in `onPredict`: the string `value` of each
text/select control and the checked state of the checkbox. -/
structure FormInput where
  Manufacturer : String
  Model : String
  Production_Year : String
  Category : String
  Leather_Interior : Bool
  Fuel_Type : String
  Engine_Volume : String
  Mileage : String
  Gearbox_Type : String
  Drive_Wheels : String
  Doors : String
  Wheel : String
  Airbags : String
deriving DecidableEq, Repr

/-- The query object as actually built by `onPredict`, keeping track of
which numeric fields can be `NaN`. -/
structure QueryJS where
  Manufacturer : String
  Model : String
  Production_Year : JSNum
  Category : String
  Leather_Interior : Bool
  Fuel_Type : String
  Engine_Volume : JSNum
  Mileage : JSNum
  Gearbox_Type : String
  Drive_Wheels : String
  Doors : JSNum
  Wheel : String
  Airbags : JSNum
deriving DecidableEq, Repr

/-- Query construction from the form, line by line from `onPredict`:
`parseFloat(...) || 0` for Engine Volume, `parseInt(...) || 0` for
Mileage, bare `parseInt(...)` (no fallback) for Production Year, Doors
and Airbags; the string and checkbox fields are copied as they are. -/
def buildQuery (f : FormInput) : QueryJS :=
  ⟨f.Manufacturer, f.Model,
   toJSNumInt (jsParseInt f.Production_Year),
   f.Category, f.Leather_Interior, f.Fuel_Type,
   jsOrZero (toJSNum (jsParseFloat f.Engine_Volume)),
   jsOrZero (toJSNumInt (jsParseInt f.Mileage)),
   f.Gearbox_Type, f.Drive_Wheels,
   toJSNumInt (jsParseInt f.Doors),
   f.Wheel,
   toJSNumInt (jsParseInt f.Airbags)⟩

/-! Concrete fixtures used by the scenario claim and as witnesses. -/

/-- The single dataset row of the spec's worked scenario. -/
def R4 : Record :=
  ⟨"A", "X", 2015, "C1", true, "F1", 2, 50000, "G1", "D1", 4, "L", 6, 12000⟩

/-- The scenario query: identical to `R4` except Production Year 2016. -/
def Q4 : Query :=
  ⟨"A", "X", 2016, "C1", true, "F1", 2, 50000, "G1", "D1", 4, "L", 6⟩

/-- A copy of `R4` whose Wheel code differs (Wheel is not scored). -/
def R4w : Record :=
  ⟨"A", "X", 2015, "C1", true, "F1", 2, 50000, "G1", "D1", 4, "R", 6, 9000⟩

/-- A query with all numeric fields 0 (used for zero-safe normalization). -/
def Q0 : Query :=
  ⟨"A", "X", 2015, "", false, "", 0, 0, "", "", 0, "", 0⟩

/-- A form where only the three required controls are filled in. -/
def F0 : FormInput :=
  ⟨"A", "X", "2015", "", false, "", "", "", "", "", "", "", ""⟩

/-! Helper lemmas. -/

/-- The query built from a record's own fields satisfies the exact-match
predicate against that record. -/
theorem isExactMatch_self (r : Record) : isExactMatch (queryFrom r) r = true := by
  simp only [isExactMatch, queryFrom]
  norm_num

/-- `find?` returns the first element satisfying the predicate: any
element known to satisfy it is the returned one or comes after it. -/
theorem find_split {α : Type} (p : α → Bool) {l : List α} {a : α}
    (ha : a ∈ l) (hpa : p a = true) :
    ∃ b as bs, l.find? p = some b ∧ p b = true ∧ l = as ++ b :: bs ∧
      (b = a ∨ a ∈ bs) := by
  induction l with
  | nil => cases ha
  | cons x xs ih =>
    cases hx : p x with
    | true =>
      refine ⟨x, [], xs, ?_, hx, rfl, ?_⟩
      · simp [List.find?, hx]
      · rcases List.mem_cons.mp ha with h | h
        · exact Or.inl h.symm
        · exact Or.inr h
    | false =>
      have ha2 : a ∈ xs := by
        rcases List.mem_cons.mp ha with h | h
        · subst h; rw [hpa] at hx; cases hx
        · exact h
      obtain ⟨b, as, bs, h1, h2, h3, h4⟩ := ih ha2
      exact ⟨b, x :: as, bs, by simp [List.find?, hx, h1], h2, by simp [h3], h4⟩

/-- Loop invariant of the nearest-match scan: starting from a current
best whose stored score is its real score, the scan ends with a record
whose score is a minimum of the remaining rows (and no worse than the
start), and which is either the untouched start or the first strict
improver in the rows. -/
theorem nearestFold_inv (q : Query) (rows : List Record) :
    ∀ (b : Record) (m : ℚ), m = score q b →
    ∃ b2, nearestFold q rows (some b, some m) = (some b2, some (score q b2)) ∧
      score q b2 ≤ m ∧ (∀ x ∈ rows, score q b2 ≤ score q x) ∧
      (b2 = b ∨ ∃ as bs, rows = as ++ b2 :: bs ∧ score q b2 < m ∧
        ∀ x ∈ as, score q b2 < score q x) := by
  induction rows with
  | nil =>
    intro b m hm
    exact ⟨b, by simp [nearestFold, hm], le_of_eq hm.symm, by simp, Or.inl rfl⟩
  | cons r rs ih =>
    intro b m hm
    by_cases hlt : score q r < m
    · have hstep : nearestFold q (r :: rs) (some b, some m) =
          nearestFold q rs (some r, some (score q r)) := by
        simp [nearestFold, ltOpt, hlt]
      obtain ⟨b2, h1, h2, h3, h4⟩ := ih r (score q r) rfl
      refine ⟨b2, hstep ▸ h1, le_trans h2 (le_of_lt hlt), ?_, ?_⟩
      · intro x hx
        rcases List.mem_cons.mp hx with h | h
        · exact h ▸ h2
        · exact h3 x h
      · rcases h4 with h | ⟨as, bs, h5, h6, h7⟩
        · refine Or.inr ⟨[], rs, by simp [h], h ▸ hlt, by simp⟩
        · refine Or.inr ⟨r :: as, bs, by simp [h5], lt_trans h6 hlt, ?_⟩
          intro x hx
          rcases List.mem_cons.mp hx with h | h
          · exact h ▸ h6
          · exact h7 x h
    · have hstep : nearestFold q (r :: rs) (some b, some m) =
          nearestFold q rs (some b, some m) := by
        simp [nearestFold, ltOpt, hlt]
      obtain ⟨b2, h1, h2, h3, h4⟩ := ih b m hm
      have hrm : m ≤ score q r := le_of_not_lt hlt
      refine ⟨b2, hstep ▸ h1, h2, ?_, ?_⟩
      · intro x hx
        rcases List.mem_cons.mp hx with h | h
        · exact h ▸ le_trans h2 hrm
        · exact h3 x h
      · rcases h4 with h | ⟨as, bs, h5, h6, h7⟩
        · exact Or.inl h
        · refine Or.inr ⟨r :: as, bs, by simp [h5], h6, ?_⟩
          intro x hx
          rcases List.mem_cons.mp hx with h | h
          · exact h ▸ lt_of_lt_of_le h6 hrm
          · exact h7 x h

/-- On a nonempty dataset the nearest-match pass returns the first
record attaining the globally minimum score, together with that score. -/
theorem findNearest_first (q : Query) (r0 : Record) (rs : List Record) :
    ∃ b2 as bs, findNearest q (r0 :: rs) = (some b2, some (score q b2)) ∧
      r0 :: rs = as ++ b2 :: bs ∧ (∀ x ∈ r0 :: rs, score q b2 ≤ score q x) ∧
      ∀ x ∈ as, score q b2 < score q x := by
  have hstep : findNearest q (r0 :: rs) =
      nearestFold q rs (some r0, some (score q r0)) := by
    simp [findNearest, nearestFold, ltOpt]
  obtain ⟨b2, h1, h2, h3, h4⟩ := nearestFold_inv q rs r0 (score q r0) rfl
  rcases h4 with h | ⟨as, bs, h5, h6, h7⟩
  · refine ⟨b2, [], rs, hstep ▸ h1, by simp [h], ?_, by simp⟩
    intro x hx
    rcases List.mem_cons.mp hx with hx | hx
    · exact hx ▸ h2
    · exact h3 x hx
  · refine ⟨b2, r0 :: as, bs, hstep ▸ h1, by simp [h5], ?_, ?_⟩
    · intro x hx
      rcases List.mem_cons.mp hx with hx | hx
      · exact hx ▸ h6.le
      · exact h3 x hx
    · intro x hx
      rcases List.mem_cons.mp hx with hx | hx
      · exact hx ▸ h6
      · exact h7 x hx

/-! Claim theorems. -/

/-- C1: for every dataset and every record R in it, the matcher run on
the query built from R's fields returns a result with exact = true and
score = 0 whose record is R itself or an earlier record in dataset
order satisfying the exact-match predicate against R. -/
theorem exact_query_returns_exact (rows : List Record) (R : Record) (hR : R ∈ rows) :
    ∃ r2, findMatch (queryFrom R) rows = ⟨some r2, some 0, true⟩ ∧
      isExactMatch (queryFrom R) r2 = true ∧
      ∃ as bs, rows = as ++ r2 :: bs ∧ (r2 = R ∨ R ∈ bs) := by
  obtain ⟨b, as, bs, hfind, hpb, hsplit, hor⟩ :=
    find_split (fun r => isExactMatch (queryFrom R) r) hR (isExactMatch_self R)
  refine ⟨b, ?_, hpb, as, bs, hsplit, hor⟩
  simp [findMatch, hfind, jsGtZero]

/-- C1 witness: the exactness property at a concrete one-row dataset. -/
theorem exact_query_returns_exact_witness :
    R4 ∈ [R4] ∧
    ∃ r2, findMatch (queryFrom R4) [R4] = ⟨some r2, some 0, true⟩ ∧
      isExactMatch (queryFrom R4) r2 = true ∧
      ∃ as bs, [R4] = as ++ r2 :: bs ∧ (r2 = R4 ∨ R4 ∈ bs) :=
  ⟨List.mem_singleton.mpr rfl,
   exact_query_returns_exact [R4] R4 (List.mem_singleton.mpr rfl)⟩

/-- C2: the claim that the matching operation never throws fails on the
`app.js` variant: there `bestScore` is block-scoped to the nearest-match
branch, so computing the exactness flag after finding a match (here an
exact match on a one-row dataset) raises a ReferenceError. -/
theorem app_variant_throws_on_match :
    onPredictApp (queryFrom R4) [R4] =
      Except.error "ReferenceError: bestScore is not defined" := by
  norm_num [onPredictApp, isExactMatch, queryFrom, R4, List.find?]

/-- C3: the dissimilarity score is exactly the sum of the categorical
penalties 5/5/3/3/2/2/1 and the query-normalized numeric terms with
weights 2/1/3/1 (Production Year with fixed denominator 10), and Doors
and Wheel contribute nothing. -/
theorem score_formula (q : Query) (r : Record) :
    (score q r =
      (if r.Manufacturer ≠ q.Manufacturer then 5 else 0) +
      (if r.Model ≠ q.Model then 5 else 0) +
      (if r.Category ≠ q.Category then 3 else 0) +
      (if r.Fuel_Type ≠ q.Fuel_Type then 3 else 0) +
      (if r.Gearbox_Type ≠ q.Gearbox_Type then 2 else 0) +
      (if r.Drive_Wheels ≠ q.Drive_Wheels then 2 else 0) +
      (if r.Leather_Interior ≠ q.Leather_Interior then 1 else 0) +
      |r.Engine_Volume - q.Engine_Volume| /
        (if q.Engine_Volume ≠ 0 then q.Engine_Volume else 1) * 2 +
      |r.Mileage - q.Mileage| / (if q.Mileage ≠ 0 then q.Mileage else 1) * 1 +
      |r.Production_Year - q.Production_Year| / 10 * 3 +
      |r.Airbags - q.Airbags| / (if q.Airbags ≠ 0 then q.Airbags else 1) * 1) ∧
    ∀ (d d2 : ℚ) (w w2 : String),
      score q ⟨r.Manufacturer, r.Model, r.Production_Year, r.Category,
        r.Leather_Interior, r.Fuel_Type, r.Engine_Volume, r.Mileage,
        r.Gearbox_Type, r.Drive_Wheels, d, w, r.Airbags, r.predicted_price⟩ =
      score q ⟨r.Manufacturer, r.Model, r.Production_Year, r.Category,
        r.Leather_Interior, r.Fuel_Type, r.Engine_Volume, r.Mileage,
        r.Gearbox_Type, r.Drive_Wheels, d2, w2, r.Airbags, r.predicted_price⟩ := by
  constructor
  · simp only [score, catScore, engineDiff, mileageDiff, yearDiff, airbagsDiff, jsOr1,
      engineVolWeight, mileageWeight, yearWeight, airbagsWeight, ite_not]
    ring
  · intro d d2 w w2
    rfl

/-- C4: on the one-row scenario dataset, the query identical to the row
except Production Year 2016 yields a non-exact match with score 3/10 on
that row, whose predicted price is 12000. -/
theorem scenario_year_off_by_one :
    findMatch Q4 [R4] = ⟨some R4, some (3 / 10), false⟩ ∧
    R4.predicted_price = 12000 := by
  constructor
  · norm_num [findMatch, findNearest, nearestFold, isExactMatch, score, catScore,
      engineDiff, mileageDiff, yearDiff, airbagsDiff, jsOr1, ltOpt, jsGtZero,
      engineVolWeight, mileageWeight, yearWeight, airbagsWeight, Q4, R4, List.find?]
  · rfl

/-- C5: on an empty dataset the matcher reports a null record, and even
the `app.js` variant runs to completion there (the no-match branch never
touches the out-of-scope `bestScore`). -/
theorem empty_dataset_null (q : Query) (h : validQuery q = true) :
    (findMatch q []).record = none ∧
    onPredictApp q [] = Except.ok ⟨none, none, false⟩ :=
  ⟨rfl, rfl⟩

/-- C5 witness: the empty-dataset behavior at a concrete valid query. -/
theorem empty_dataset_null_witness :
    validQuery Q4 = true ∧ (findMatch Q4 []).record = none ∧
    onPredictApp Q4 [] = Except.ok ⟨none, none, false⟩ := by
  have h : validQuery Q4 = true := by
    simp only [validQuery, Q4]
    norm_num
    exact ⟨by decide, by decide⟩
  exact ⟨h, (empty_dataset_null Q4 h).1, (empty_dataset_null Q4 h).2⟩

/-- C6 counterexample: with the three required fields filled and every
other control left unspecified, Doors and Airbags in the built query are
NaN, not the 0 the claim promises, while Engine Volume and Mileage do
default to 0: the query is not always well-typed. -/
theorem doors_airbags_no_default :
    (buildQuery F0).Doors = JSNum.nan ∧ (buildQuery F0).Airbags = JSNum.nan ∧
    (buildQuery F0).Engine_Volume = JSNum.num 0 ∧
    (buildQuery F0).Mileage = JSNum.num 0 := by
  refine ⟨?_, ?_, ?_, ?_⟩ <;> decide

/-- The `|| 0` fallback always yields an actual number. -/
theorem jsOrZero_isNum (v : JSNum) : (jsOrZero v).isNum = true := by
  cases v with
  | nan => rfl
  | num x =>
    by_cases hx : x = 0 <;> simp [jsOrZero, hx, JSNum.isNum]

/-- C6 amended: Engine Volume and Mileage always default to a number
(0 when unspecified or unparseable), the categorical and boolean fields
are passed through (empty or false when unspecified), but Doors and
Airbags have no fallback: an unparseable input leaves them NaN. -/
theorem defaults_amended (f : FormInput) :
    ((buildQuery f).Engine_Volume).isNum = true ∧
    ((buildQuery f).Mileage).isNum = true ∧
    (buildQuery f).Category = f.Category ∧
    (buildQuery f).Leather_Interior = f.Leather_Interior ∧
    (buildQuery f).Fuel_Type = f.Fuel_Type ∧
    (buildQuery f).Gearbox_Type = f.Gearbox_Type ∧
    (buildQuery f).Drive_Wheels = f.Drive_Wheels ∧
    (buildQuery f).Wheel = f.Wheel ∧
    (jsParseInt f.Doors = none → (buildQuery f).Doors = JSNum.nan) ∧
    (jsParseInt f.Airbags = none → (buildQuery f).Airbags = JSNum.nan) := by
  refine ⟨jsOrZero_isNum _, jsOrZero_isNum _, rfl, rfl, rfl, rfl, rfl, rfl, ?_, ?_⟩
  · intro h
    simp [buildQuery, h, toJSNumInt]
  · intro h
    simp [buildQuery, h, toJSNumInt]

/-- C6 amended witness: the defaulting behavior at the concrete form
with only the required fields filled. -/
theorem defaults_amended_witness :
    ((buildQuery F0).Engine_Volume).isNum = true ∧ (buildQuery F0).Doors = JSNum.nan :=
  ⟨(defaults_amended F0).1,
   (defaults_amended F0).2.2.2.2.2.2.2.2.1 (by decide)⟩

/-- C7: when two records attain the same globally minimum score, the
nearest-match pass returns the first record in dataset order attaining
that minimum (stable scan, strict-less-than comparison). -/
theorem tie_first_encountered (q : Query) (rows : List Record) (i j : Nat)
    (r1 r2 : Record) (hij : i < j) (hi : rows[i]? = some r1)
    (hj : rows[j]? = some r2)
    (hmin : ∀ x ∈ rows, score q r1 ≤ score q x)
    (htie : score q r2 = score q r1) :
    ∃ b2 as bs, (findNearest q rows).1 = some b2 ∧ rows = as ++ b2 :: bs ∧
      score q b2 = score q r1 ∧ ∀ x ∈ as, score q r1 < score q x := by
  cases rows with
  | nil => simp at hi
  | cons r0 rs =>
    obtain ⟨b2, as, bs, he, hsplit, hle, hstrict⟩ := findNearest_first q r0 rs
    have hb2 : b2 ∈ r0 :: rs := by
      rw [hsplit]
      exact List.mem_append_right as (List.mem_cons_self b2 bs)
    have hr1mem : r1 ∈ r0 :: rs := by
      obtain ⟨hlt, heq⟩ := List.getElem?_eq_some.mp hi
      exact heq ▸ List.getElem_mem hlt
    have hsc : score q b2 = score q r1 :=
      le_antisymm (hle r1 hr1mem) (hmin b2 hb2)
    exact ⟨b2, as, bs, by rw [he], hsplit, hsc, fun x hx => hsc ▸ hstrict x hx⟩

/-- C7 witness: a two-row dataset whose rows differ only in the unscored
Wheel field ties at the minimum score; the first row is returned. -/
theorem tie_first_encountered_witness :
    (∀ x ∈ [R4, R4w], score Q4 R4 ≤ score Q4 x) ∧
    score Q4 R4w = score Q4 R4 ∧
    (∃ b2 as bs, (findNearest Q4 [R4, R4w]).1 = some b2 ∧
      [R4, R4w] = as ++ b2 :: bs ∧ score Q4 b2 = score Q4 R4 ∧
      ∀ x ∈ as, score Q4 R4 < score Q4 x) := by
  have htie : score Q4 R4w = score Q4 R4 := by
    norm_num [score, catScore, engineDiff, mileageDiff, yearDiff, airbagsDiff,
      jsOr1, engineVolWeight, mileageWeight, yearWeight, airbagsWeight, Q4, R4, R4w]
  have hmin : ∀ x ∈ [R4, R4w], score Q4 R4 ≤ score Q4 x := by
    intro x hx
    rcases List.mem_cons.mp hx with h | hx2
    · exact le_of_eq (congrArg (score Q4) h.symm)
    · rcases List.mem_cons.mp hx2 with h | h
      · exact le_of_eq (h ▸ htie).symm
      · cases h
  exact ⟨hmin, htie,
    tie_first_encountered Q4 [R4, R4w] 0 1 R4 R4w (by norm_num) rfl rfl hmin htie⟩

/-- C8: when a query numeric field is 0 the denominator falls back to 1,
so the mileage contribution is exactly the absolute difference over 1
(weight 1), and likewise for Engine Volume (weight 2) and Airbags. -/
theorem zero_query_normalization (q : Query) (r : Record) :
    (q.Mileage = 0 → mileageDiff q r * mileageWeight = |r.Mileage - 0| / 1 * 1) ∧
    (q.Engine_Volume = 0 →
      engineDiff q r * engineVolWeight = |r.Engine_Volume - 0| / 1 * 2) ∧
    (q.Airbags = 0 → airbagsDiff q r * airbagsWeight = |r.Airbags - 0| / 1 * 1) := by
  refine ⟨fun h => ?_, fun h => ?_, fun h => ?_⟩
  · simp [mileageDiff, jsOr1, h, mileageWeight]
  · simp [engineDiff, jsOr1, h, engineVolWeight]
  · simp [airbagsDiff, jsOr1, h, airbagsWeight]

/-- C8 witness: the zero-mileage fallback at a concrete query. -/
theorem zero_query_normalization_witness :
    Q0.Mileage = 0 ∧ mileageDiff Q0 R4 * mileageWeight = |R4.Mileage - 0| / 1 * 1 :=
  ⟨rfl, (zero_query_normalization Q0 R4).1 rfl⟩

/-- C9: the matcher is deterministic: two invocations on the same query
and dataset return identical results. -/
theorem matcher_deterministic (q : Query) (rows : List Record)
    (r1 r2 : MatchResult) (h1 : findMatch q rows = r1)
    (h2 : findMatch q rows = r2) : r1 = r2 :=
  h1.symm.trans h2

/-- C9 witness: determinism at a concrete query and dataset. -/
theorem matcher_deterministic_witness : findMatch Q4 [R4] = findMatch Q4 [R4] :=
  matcher_deterministic Q4 [R4] (findMatch Q4 [R4]) (findMatch Q4 [R4]) rfl rfl

/-- C10: whenever the matcher produces a non-null record, from either
pass, that record is an element of the dataset rows. -/
theorem match_from_dataset (q : Query) (rows : List Record) (r : Record)
    (h : (findMatch q rows).record = some r) : r ∈ rows := by
  cases hfind : rows.find? (fun x => isExactMatch q x) with
  | some r2 =>
    have hrec : (findMatch q rows).record = some r2 := by
      simp [findMatch, hfind]
    rw [hrec] at h
    obtain rfl : r2 = r := Option.some.inj h
    exact List.mem_of_find?_eq_some hfind
  | none =>
    cases rows with
    | nil => simp [findMatch, hfind, findNearest, nearestFold] at h
    | cons r0 rs =>
      obtain ⟨b2, as, bs, he, hsplit, _, _⟩ := findNearest_first q r0 rs
      have hrec : (findMatch q (r0 :: rs)).record = (findNearest q (r0 :: rs)).1 := by
        simp [findMatch, hfind]
      rw [hrec, he] at h
      obtain rfl : b2 = r := Option.some.inj h
      rw [hsplit]
      exact List.mem_append_right as (List.mem_cons_self b2 bs)

/-- C10 witness: the returned record belongs to the dataset at a
concrete query and one-row dataset. -/
theorem match_from_dataset_witness :
    (findMatch Q4 [R4]).record = some R4 ∧ R4 ∈ [R4] := by
  have h : (findMatch Q4 [R4]).record = some R4 := by
    norm_num [findMatch, findNearest, nearestFold, isExactMatch, score, catScore,
      engineDiff, mileageDiff, yearDiff, airbagsDiff, jsOr1, ltOpt, jsGtZero,
      engineVolWeight, mileageWeight, yearWeight, airbagsWeight, Q4, R4, List.find?]
  exact ⟨h, match_from_dataset Q4 [R4] R4 h⟩

end CarPrice
